import Mathlib

/-!
Shallow embedding of the build-dispatch core of `atc/scheduler/buildstarter.go`
(Concourse): the pending-build dispatch loop `TryStartPendingBuildsForJob` and
its per-build start procedure `tryStartNextPendingBuild`.

Collaborators (pipeline pause check, job pause flag, the scheduling claim,
the readiness strategy, input resolution, resource-type / config fetch, the
plan compiler, build finish/start) are interfaces in the source; they are
modelled as oracle fields on the build record and on an environment record.
Every collaborator call is logged in an effect trace so that statements such
as "no scheduling claim is attempted" or "exactly one terminal-status write"
are expressible about a run.
-/

namespace BuildStarter

/-- Errors, mirroring Go `error` values: either a fresh message or a wrap
`fmt.Errorf("msg: %w", err)`. -/
inductive Err where
  | msg : String → Err
  | wrap : String → Err → Err
deriving DecidableEq, Repr

/-- The `db.BuildStatus` values: only aborted/errored are written by this core, the rest
exist for completeness. -/
inductive BuildStatus where
  | pending
  | started
  | aborted
  | errored
  | succeeded
  | failed
deriving DecidableEq, Repr

/-- Opaque handle for `db.BuildInput` (resolved input pair); its contents are
never inspected by this core, only passed to the plan compiler. -/
structure BuildInput where
  handle : Nat
deriving DecidableEq, Repr

/-- Opaque handle for `atc.JobConfig`. -/
structure JobConfig where
  handle : Nat
deriving DecidableEq, Repr

/-- Opaque handle for `atc.Plan` produced by the plan compiler. -/
structure Plan where
  handle : Nat
deriving DecidableEq, Repr

/-- Opaque handle for `db.ResourceTypes` fetched from the pipeline. -/
structure ResourceTypes where
  handle : Nat
deriving DecidableEq, Repr

/-- Opaque handle for `atc.VersionedResourceTypes`. Modelled from the spec:
`ResourceTypes.Deserialize` lives in the external `db` package (not under the
sources), an opaque data transformation with no scheduling concerns. -/
structure VersionedResourceTypes where
  handle : Nat
deriving DecidableEq, Repr

/-- Modelled from the spec: the external `Deserialize` step, an opaque
repackaging of the fetched resource-type set. -/
def ResourceTypes.deserialize (r : ResourceTypes) : VersionedResourceTypes :=
  ⟨r.handle⟩

/-- A pipeline resource as read by this core (`v.Name()`, `v.Type()`,
`v.Source()`, `v.Tags()`); source/tags are opaque strings here. -/
structure Resource where
  name : String
  rtype : String
  source : String
  tags : List String
deriving DecidableEq, Repr

/-- An `atc.ResourceConfig` assembled by the loop from a `Resource`. -/
structure ResourceConfig where
  name : String
  rtype : String
  source : String
  tags : List String
deriving DecidableEq, Repr

/-- One pending build together with the responses its collaborator methods
give during this tick.  `rerunOf = 0` means "not a re-run", as in the source
(`RerunOf() == 0`). `finishResult s` is the error outcome of
`Finish(s)`; `scheduleResult` of `job.ScheduleBuild(build)`; `isReady` of
`IsReadyToDetermineInputs`; `buildInputsResult` of `BuildInputs` (Go
`(inputs, found, error)`); `startResult p` of `Start(p)`. -/
structure BuildRec where
  id : Nat
  name : String
  rerunOf : Nat
  manuallyTriggered : Bool
  isAborted : Bool
  finishResult : BuildStatus → Option Err
  scheduleResult : Except Err Bool
  isReady : Bool
  buildInputsResult : Except Err (List BuildInput × Bool)
  startResult : Plan → Except Err Bool

/-- Tick-level environment: responses of the pipeline, job and factory
collaborators. `checkPaused` is `pipeline.CheckPaused()`, `jobPaused` is
`job.Paused()`, `getPendingBuilds` is `job.GetPendingBuilds()`,
`resourceTypes` is `pipeline.ResourceTypes()`, `config` is `job.Config()`,
and `create` is `factory.Create(config, resourceConfigs, versionedTypes,
buildInputs)`. -/
structure EnvRec where
  getPendingBuilds : Except Err (List BuildRec)
  checkPaused : Except Err Bool
  jobPaused : Bool
  resourceTypes : Except Err ResourceTypes
  config : Except Err JobConfig
  create : JobConfig → List ResourceConfig → VersionedResourceTypes →
           List BuildInput → Except Err Plan

/-- Collaborator calls made on behalf of one build, in order. -/
inductive Effect where
  | checkPipelinePaused
  | readJobPaused
  | scheduleClaim
  | checkReady
  | getBuildInputs
  | fetchResourceTypes
  | fetchConfig
  | compile
  | finish (s : BuildStatus)
  | start
  | metricInc
deriving DecidableEq, Repr

/-- True exactly on terminal-status writes (`Finish(...)`). -/
def Effect.isTerminalWrite : Effect → Bool
  | .finish _ => true
  | _ => false

/-- The `startResults` record of the source; the source struct has exactly
these three fields (note: the dead loop branch reads a `needsRetry` field
that `startResults` does not declare). -/
structure startResults where
  aborted : Bool := false
  scheduled : Bool := false
  readyToDetermineInputs : Bool := false
deriving DecidableEq, Repr

/-- Result of one run of the per-build procedure: the `startResults` value,
the `error` return, and the trace of collaborator calls made. -/
structure TryResult where
  results : startResults
  err : Option Err
  trace : List Effect

/-- Build variants produced by `constructBuilds`: manual-trigger flag wins,
then non-zero re-run reference, else normal (`schedulerBuild`). -/
inductive Variant where
  | manualTrigger
  | rerun
  | normal
deriving DecidableEq, Repr

/-- The classification performed by `constructBuilds` for one build. -/
def classify (b : BuildRec) : Variant :=
  if b.manuallyTriggered then .manualTrigger
  else if b.rerunOf ≠ 0 then .rerun
  else .normal

/-- The `constructBuilds` step: classify every pending build, in order. The variant
wrappers only choose the readiness / input-resolution strategy, which here is
already folded into the build record's oracle fields. -/
def constructBuilds (builds : List BuildRec) : List (BuildRec × Variant) :=
  builds.map (fun b => (b, classify b))

/-- The `resourceConfigs` assembly loop of
`tryStartNextPendingBuild` (lines 225-233 of the source). -/
def mkResourceConfigs (resources : List Resource) : List ResourceConfig :=
  resources.map (fun v => ⟨v.name, v.rtype, v.source, v.tags⟩)

/-- The per-build start procedure `tryStartNextPendingBuild`, line by line.  The source also re-checks a
stale `err` after `IsReadyToDetermineInputs` (lines 193-195); on every path
reaching that check the error is nil, so the check is dead and not modelled.
-/
def tryStartNextPendingBuild (env : EnvRec) (b : BuildRec)
    (resources : List Resource) : TryResult :=
  if b.isAborted then
    match b.finishResult .aborted with
    | some e => ⟨{}, some (.wrap "finish aborted build" e), [.finish .aborted]⟩
    | none => ⟨{ aborted := true }, none, [.finish .aborted]⟩
  else
    match env.checkPaused with
    | .error e =>
        ⟨{}, some (.wrap "check pipeline paused" e), [.checkPipelinePaused]⟩
    | .ok pipelinePaused =>
      if pipelinePaused then
        ⟨{}, none, [.checkPipelinePaused]⟩
      else if env.jobPaused then
        ⟨{}, none, [.checkPipelinePaused, .readJobPaused]⟩
      else
        match b.scheduleResult with
        | .error e =>
            ⟨{}, some (.wrap "schedule build" e),
             [.checkPipelinePaused, .readJobPaused, .scheduleClaim]⟩
        | .ok scheduled =>
          if !scheduled then
            ⟨{ scheduled := false }, none,
             [.checkPipelinePaused, .readJobPaused, .scheduleClaim]⟩
          else
            let readyToDetermineInputs := b.isReady
            if !readyToDetermineInputs then
              ⟨{ scheduled := scheduled,
                 readyToDetermineInputs := readyToDetermineInputs }, none,
               [.checkPipelinePaused, .readJobPaused, .scheduleClaim,
                .checkReady]⟩
            else
              match b.buildInputsResult with
              | .error e =>
                  ⟨{}, some (.wrap "get build inputs" e),
                   [.checkPipelinePaused, .readJobPaused, .scheduleClaim,
                    .checkReady, .getBuildInputs]⟩
              | .ok (buildInputs, found) =>
                if !found then
                  -- inputs unsatisfiable: not an error, no retry
                  ⟨{ scheduled := scheduled,
                     readyToDetermineInputs := readyToDetermineInputs }, none,
                   [.checkPipelinePaused, .readJobPaused, .scheduleClaim,
                    .checkReady, .getBuildInputs]⟩
                else
                  match env.resourceTypes with
                  | .error e =>
                      ⟨{}, some (.wrap "find resource types" e),
                       [.checkPipelinePaused, .readJobPaused, .scheduleClaim,
                        .checkReady, .getBuildInputs, .fetchResourceTypes]⟩
                  | .ok resourceTypes =>
                    let resourceConfigs := mkResourceConfigs resources
                    match env.config with
                    | .error e =>
                        ⟨{}, some (.wrap "config" e),
                         [.checkPipelinePaused, .readJobPaused, .scheduleClaim,
                          .checkReady, .getBuildInputs, .fetchResourceTypes,
                          .fetchConfig]⟩
                    | .ok config =>
                      match env.create config resourceConfigs
                          resourceTypes.deserialize buildInputs with
                      | .error _ =>
                        -- plan compiler failed: finish the build as errored
                        match b.finishResult .errored with
                        | some e =>
                            ⟨{}, some (.wrap "finish build" e),
                             [.checkPipelinePaused, .readJobPaused,
                              .scheduleClaim, .checkReady, .getBuildInputs,
                              .fetchResourceTypes, .fetchConfig, .compile,
                              .finish .errored]⟩
                        | none =>
                            ⟨{}, none,
                             [.checkPipelinePaused, .readJobPaused,
                              .scheduleClaim, .checkReady, .getBuildInputs,
                              .fetchResourceTypes, .fetchConfig, .compile,
                              .finish .errored]⟩
                      | .ok plan =>
                        match b.startResult plan with
                        | .error e =>
                            ⟨{}, some (.wrap "start build" e),
                             [.checkPipelinePaused, .readJobPaused,
                              .scheduleClaim, .checkReady, .getBuildInputs,
                              .fetchResourceTypes, .fetchConfig, .compile,
                              .start]⟩
                        | .ok started =>
                          if !started then
                            match b.finishResult .aborted with
                            | some e =>
                                ⟨{}, some (.wrap "finish build" e),
                                 [.checkPipelinePaused, .readJobPaused,
                                  .scheduleClaim, .checkReady, .getBuildInputs,
                                  .fetchResourceTypes, .fetchConfig, .compile,
                                  .start, .finish .aborted]⟩
                            | none =>
                                ⟨{ scheduled := scheduled,
                                   readyToDetermineInputs :=
                                     readyToDetermineInputs }, none,
                                 [.checkPipelinePaused, .readJobPaused,
                                  .scheduleClaim, .checkReady, .getBuildInputs,
                                  .fetchResourceTypes, .fetchConfig, .compile,
                                  .start, .finish .aborted]⟩
                          else
                            ⟨{ scheduled := scheduled,
                               readyToDetermineInputs :=
                                 readyToDetermineInputs }, none,
                             [.checkPipelinePaused, .readJobPaused,
                              .scheduleClaim, .checkReady, .getBuildInputs,
                              .fetchResourceTypes, .fetchConfig, .compile,
                              .start, .metricInc]⟩

/-- What the dispatch loop body decides after one per-build result
(lines 86-101 of the source). `haltRerunException` is the branch at
lines 98-101; its Go body reads `results.needsRetry`, a field that
`startResults` does not declare (a compile error in the source); were it
reachable, the zero value `false` stands in for it. -/
inductive Decision where
  | haltError (e : Err)
  | continueNext
  | haltRetry
  | haltRerunException
deriving DecidableEq, Repr

/-- The loop-body interpretation of one per-build result, in source order:
error → propagate; aborted → continue; not scheduled or not ready → halt
with retry; scheduled, not ready, not a re-run → the (dead) exception
branch; otherwise continue. -/
def dispatchDecision (r : TryResult) (rerunOf : Nat) : Decision :=
  match r.err with
  | some e => .haltError e
  | none =>
    if r.results.aborted then
      .continueNext
    else if !r.results.scheduled || !r.results.readyToDetermineInputs then
      .haltRetry
    else if r.results.scheduled && !r.results.readyToDetermineInputs
        && rerunOf == 0 then
      .haltRerunException
    else
      .continueNext

/-- The dispatch loop over the (classified) pending builds.  Returns the Go
pair `(needsRetry, error)` and, for this embedding, the list of builds that
were evaluated this tick (id paired with the per-build effect trace). -/
def dispatchLoop (env : EnvRec) (resources : List Resource) :
    List BuildRec → (Bool × Option Err) × List (Nat × List Effect)
  | [] => ((false, none), [])
  | b :: rest =>
    let r := tryStartNextPendingBuild env b resources
    match dispatchDecision r b.rerunOf with
    | .haltError e => ((false, some e), [(b.id, r.trace)])
    | .haltRetry => ((true, none), [(b.id, r.trace)])
    | .haltRerunException => ((false, none), [(b.id, r.trace)])
    | .continueNext =>
      let tail := dispatchLoop env resources rest
      (tail.1, (b.id, r.trace) :: tail.2)

/-- The dispatch entry point `TryStartPendingBuildsForJob`: fetch the pending builds, classify them,
and run the dispatch loop.  Returns `(needsRetry, error)` plus the evaluated
builds. -/
def TryStartPendingBuildsForJob (env : EnvRec) (resources : List Resource) :
    (Bool × Option Err) × List (Nat × List Effect) :=
  match env.getPendingBuilds with
  | .error e => ((false, some (.wrap "get pending builds" e)), [])
  | .ok builds =>
      dispatchLoop env resources ((constructBuilds builds).map Prod.fst)

end BuildStarter

namespace BuildStarter

/-- A build whose every collaborator call succeeds: normal trigger, not
aborted, claim won, ready, inputs found. -/
def sampleBuild : BuildRec :=
  { id := 1, name := "1", rerunOf := 0, manuallyTriggered := false,
    isAborted := false, finishResult := fun _ => none,
    scheduleResult := .ok true, isReady := true,
    buildInputsResult := .ok ([⟨7⟩], true), startResult := fun _ => .ok true }

/-- An environment whose every collaborator call succeeds, with no pending
builds by default. -/
def envAllOk : EnvRec :=
  { getPendingBuilds := .ok [], checkPaused := .ok false, jobPaused := false,
    resourceTypes := .ok ⟨3⟩, config := .ok ⟨5⟩,
    create := fun _ _ _ _ => .ok ⟨9⟩ }

/-- A build whose abort flag is set; its finish write succeeds. -/
def abortedBuild : BuildRec := { sampleBuild with id := 3, isAborted := true }

/-- An environment with both the pipeline and the job paused. -/
def envPausedBoth : EnvRec :=
  { envAllOk with checkPaused := .ok true, jobPaused := true }

/-- Claim C2: the re-run exception branch of the dispatch loop (guarded by
`scheduled`, `!readyToDetermineInputs` and `RerunOf() == 0`) is unreachable:
any per-build result with `scheduled = true` and
`readyToDetermineInputs = false` already takes the preceding halting branch,
so the loop-body decision is never `haltRerunException`. -/
theorem rerun_exception_branch_unreachable (r : TryResult) (rerunOf : Nat) :
    (dispatchDecision r rerunOf == Decision.haltRerunException) = false := by
  rcases r with ⟨⟨a, s, d⟩, err, tr⟩
  cases err <;> cases a <;> cases s <;> cases d <;>
    simp [dispatchDecision]

/-- Claim C4: a pending build whose abort flag is set is finished with status
aborted; when the finish write succeeds the procedure returns
`{aborted := true}` with no error and the dispatch loop continues to the rest
of the pending builds in the same tick; when the finish write fails the only
error returned is that write's error, wrapped. -/
theorem aborted_build_finished_and_never_blocks (env : EnvRec) (b : BuildRec)
    (resources : List Resource) (rest : List BuildRec)
    (hab : b.isAborted = true) :
    (b.finishResult .aborted = none →
      tryStartNextPendingBuild env b resources =
        ⟨{ aborted := true }, none, [.finish .aborted]⟩ ∧
      dispatchLoop env resources (b :: rest) =
        ((dispatchLoop env resources rest).1,
         (b.id, [Effect.finish .aborted]) ::
           (dispatchLoop env resources rest).2)) ∧
    (∀ e, b.finishResult .aborted = some e →
      (tryStartNextPendingBuild env b resources).err =
        some (.wrap "finish aborted build" e)) := by
  constructor
  · intro hfin
    have h1 : tryStartNextPendingBuild env b resources =
        ⟨{ aborted := true }, none, [.finish .aborted]⟩ := by
      simp [tryStartNextPendingBuild, hab, hfin]
    exact ⟨h1, by simp [dispatchLoop, h1, dispatchDecision]⟩
  · intro e hfin
    simp [tryStartNextPendingBuild, hab, hfin]

/-- Claim C4 witness: concrete aborted build ahead of a normal build; the
normal build is still evaluated in the same tick. -/
theorem aborted_build_finished_and_never_blocks_witness :
    abortedBuild.isAborted = true ∧
    abortedBuild.finishResult .aborted = none ∧
    tryStartNextPendingBuild envAllOk abortedBuild [] =
      ⟨{ aborted := true }, none, [.finish .aborted]⟩ ∧
    dispatchLoop envAllOk [] [abortedBuild, sampleBuild] =
      ((dispatchLoop envAllOk [] [sampleBuild]).1,
       (abortedBuild.id, [Effect.finish .aborted]) ::
         (dispatchLoop envAllOk [] [sampleBuild]).2) :=
  ⟨rfl, rfl,
    ((aborted_build_finished_and_never_blocks envAllOk abortedBuild []
        [sampleBuild] rfl).1 rfl).1,
    ((aborted_build_finished_and_never_blocks envAllOk abortedBuild []
        [sampleBuild] rfl).1 rfl).2⟩

/-- Claim C5: a non-aborted build under a paused pipeline, or a paused job,
yields the zero result with no error; the trace shows no scheduling claim,
no terminal-status write and no start, so the build remains pending. -/
theorem paused_no_claim_build_stays_pending (env : EnvRec) (b : BuildRec)
    (resources : List Resource) (hab : b.isAborted = false) :
    (env.checkPaused = .ok true →
      tryStartNextPendingBuild env b resources =
        ⟨{}, none, [.checkPipelinePaused]⟩) ∧
    (env.checkPaused = .ok false → env.jobPaused = true →
      tryStartNextPendingBuild env b resources =
        ⟨{}, none, [.checkPipelinePaused, .readJobPaused]⟩) ∧
    ((env.checkPaused = .ok true ∨
        (env.checkPaused = .ok false ∧ env.jobPaused = true)) →
      Effect.scheduleClaim ∉ (tryStartNextPendingBuild env b resources).trace ∧
      (∀ s, Effect.finish s ∉
        (tryStartNextPendingBuild env b resources).trace) ∧
      Effect.start ∉ (tryStartNextPendingBuild env b resources).trace) := by
  refine ⟨?_, ?_, ?_⟩
  · intro hpp
    simp [tryStartNextPendingBuild, hab, hpp]
  · intro hpp hjp
    simp [tryStartNextPendingBuild, hab, hpp, hjp]
  · rintro (hpp | ⟨hpp, hjp⟩)
    · simp [tryStartNextPendingBuild, hab, hpp]
    · simp [tryStartNextPendingBuild, hab, hpp, hjp]

/-- Claim C5 witness: concrete paused pipeline and paused job, build stays
pending with no claim attempted. -/
theorem paused_no_claim_build_stays_pending_witness :
    sampleBuild.isAborted = false ∧
    envPausedBoth.checkPaused = .ok true ∧
    tryStartNextPendingBuild envPausedBoth sampleBuild [] =
      ⟨{}, none, [.checkPipelinePaused]⟩ :=
  ⟨rfl, rfl,
    (paused_no_claim_build_stays_pending envPausedBoth sampleBuild []
      rfl).1 rfl⟩

/-- Claim C10: the abort check precedes the pause checks: for an aborted
build (finish write succeeding) the procedure returns `{aborted := true}`
for every environment, including paused ones, and the trace consults
neither pause flag nor the scheduling claim. -/
theorem abort_check_precedes_pause_checks (env : EnvRec) (b : BuildRec)
    (resources : List Resource) (hab : b.isAborted = true)
    (hfin : b.finishResult .aborted = none) :
    tryStartNextPendingBuild env b resources =
      ⟨{ aborted := true }, none, [.finish .aborted]⟩ ∧
    Effect.checkPipelinePaused ∉
      (tryStartNextPendingBuild env b resources).trace ∧
    Effect.readJobPaused ∉ (tryStartNextPendingBuild env b resources).trace ∧
    Effect.scheduleClaim ∉
      (tryStartNextPendingBuild env b resources).trace := by
  have h1 : tryStartNextPendingBuild env b resources =
      ⟨{ aborted := true }, none, [.finish .aborted]⟩ := by
    simp [tryStartNextPendingBuild, hab, hfin]
  refine ⟨h1, ?_, ?_, ?_⟩ <;> simp [h1]

/-- Claim C10 witness: aborted build under an environment where both the
pipeline and the job are paused; it is still finished as aborted. -/
theorem abort_check_precedes_pause_checks_witness :
    abortedBuild.isAborted = true ∧
    abortedBuild.finishResult .aborted = none ∧
    envPausedBoth.checkPaused = .ok true ∧ envPausedBoth.jobPaused = true ∧
    tryStartNextPendingBuild envPausedBoth abortedBuild [] =
      ⟨{ aborted := true }, none, [.finish .aborted]⟩ :=
  ⟨rfl, rfl, rfl, rfl,
    (abort_check_precedes_pause_checks envPausedBoth abortedBuild []
      rfl rfl).1⟩

/-- A normal build that wins the claim but is not ready to determine
inputs. -/
def normalNotReadyBuild : BuildRec :=
  { sampleBuild with id := 4, isReady := false }

/-- A build that loses the scheduling claim race. -/
def lostClaimBuild : BuildRec :=
  { sampleBuild with id := 5, scheduleResult := .ok false }

/-- A ready, claimed build whose input resolution reports not-found. -/
def notFoundBuild : BuildRec :=
  { sampleBuild with id := 6, buildInputsResult := .ok ([], false) }

/-- An environment whose plan compiler fails. -/
def envCompileFail : EnvRec :=
  { envAllOk with create := fun _ _ _ _ => .error (.msg "bad config") }

/-- Claim C3: when the only pending build is a normal build that is claimed
but not ready to determine inputs, the procedure returns
`{scheduled := true}` with the ready flag false and no error, writes no
terminal status and starts nothing (the build stays pending, claimed), and
the whole tick returns `needsRetry = true` with a nil error, having
evaluated only that build. -/
theorem normal_not_ready_singleton_needs_retry (env : EnvRec) (b : BuildRec)
    (resources : List Resource)
    (hpb : env.getPendingBuilds = .ok [b])
    (hab : b.isAborted = false)
    (hmt : b.manuallyTriggered = false) (hrr : b.rerunOf = 0)
    (hpp : env.checkPaused = .ok false) (hjp : env.jobPaused = false)
    (hsch : b.scheduleResult = .ok true) (hready : b.isReady = false) :
    classify b = .normal ∧
    tryStartNextPendingBuild env b resources =
      ⟨{ scheduled := true }, none,
       [.checkPipelinePaused, .readJobPaused, .scheduleClaim, .checkReady]⟩ ∧
    (∀ s, Effect.finish s ∉ (tryStartNextPendingBuild env b resources).trace) ∧
    Effect.start ∉ (tryStartNextPendingBuild env b resources).trace ∧
    Effect.scheduleClaim ∈ (tryStartNextPendingBuild env b resources).trace ∧
    TryStartPendingBuildsForJob env resources =
      ((true, none),
       [(b.id,
         [.checkPipelinePaused, .readJobPaused, .scheduleClaim,
          .checkReady])]) := by
  have h1 : tryStartNextPendingBuild env b resources =
      ⟨{ scheduled := true }, none,
       [.checkPipelinePaused, .readJobPaused, .scheduleClaim,
        .checkReady]⟩ := by
    simp [tryStartNextPendingBuild, hab, hpp, hjp, hsch, hready]
  refine ⟨by simp [classify, hmt, hrr], h1, ?_, ?_, ?_, ?_⟩
  · simp [h1]
  · simp [h1]
  · simp [h1]
  · simp [TryStartPendingBuildsForJob, hpb, constructBuilds, dispatchLoop,
      h1, dispatchDecision]

/-- Claim C3 witness: concrete normal build, claimed but not ready, as the
only pending build of the tick. -/
theorem normal_not_ready_singleton_needs_retry_witness :
    ({ envAllOk with
        getPendingBuilds := .ok [normalNotReadyBuild] } :
          EnvRec).getPendingBuilds = .ok [normalNotReadyBuild] ∧
    normalNotReadyBuild.isAborted = false ∧
    normalNotReadyBuild.isReady = false ∧
    TryStartPendingBuildsForJob
        { envAllOk with getPendingBuilds := .ok [normalNotReadyBuild] } [] =
      ((true, none),
       [(normalNotReadyBuild.id,
         [.checkPipelinePaused, .readJobPaused, .scheduleClaim,
          .checkReady])]) :=
  ⟨rfl, rfl, rfl,
    (normal_not_ready_singleton_needs_retry
      { envAllOk with getPendingBuilds := .ok [normalNotReadyBuild] }
      normalNotReadyBuild [] rfl rfl rfl rfl rfl rfl rfl
      rfl).2.2.2.2.2⟩

/-- Claim C6: a lost scheduling claim (not-scheduled without error) returns
`{scheduled := false}` with nil error, and the dispatch loop halts for the
tick: no later pending build is evaluated and no error is returned. -/
theorem lost_claim_stops_tick_no_error (env : EnvRec) (b : BuildRec)
    (resources : List Resource) (rest : List BuildRec)
    (hab : b.isAborted = false) (hpp : env.checkPaused = .ok false)
    (hjp : env.jobPaused = false) (hsch : b.scheduleResult = .ok false) :
    tryStartNextPendingBuild env b resources =
      ⟨{ scheduled := false }, none,
       [.checkPipelinePaused, .readJobPaused, .scheduleClaim]⟩ ∧
    dispatchLoop env resources (b :: rest) =
      ((true, none),
       [(b.id, [.checkPipelinePaused, .readJobPaused, .scheduleClaim])]) := by
  have h1 : tryStartNextPendingBuild env b resources =
      ⟨{ scheduled := false }, none,
       [.checkPipelinePaused, .readJobPaused, .scheduleClaim]⟩ := by
    simp [tryStartNextPendingBuild, hab, hpp, hjp, hsch]
  exact ⟨h1, by simp [dispatchLoop, h1, dispatchDecision]⟩

/-- Claim C6 witness: the build behind the lost claim is not evaluated. -/
theorem lost_claim_stops_tick_no_error_witness :
    lostClaimBuild.isAborted = false ∧
    lostClaimBuild.scheduleResult = .ok false ∧
    dispatchLoop envAllOk [] [lostClaimBuild, sampleBuild] =
      ((true, none),
       [(lostClaimBuild.id,
         [.checkPipelinePaused, .readJobPaused, .scheduleClaim])]) :=
  ⟨rfl, rfl,
    (lost_claim_stops_tick_no_error envAllOk lostClaimBuild [] [sampleBuild]
      rfl rfl rfl rfl).2⟩

/-- Claim C7: a claimed, ready build whose input resolution reports
not-found (without error) yields `{scheduled := true,
readyToDetermineInputs := true}` with nil error; the plan compiler is never
invoked, no terminal status is written, nothing is started, and a tick
consisting of that build alone reports no error. -/
theorem unsatisfiable_inputs_left_pending (env : EnvRec) (b : BuildRec)
    (resources : List Resource) (inputs : List BuildInput)
    (hab : b.isAborted = false) (hpp : env.checkPaused = .ok false)
    (hjp : env.jobPaused = false) (hsch : b.scheduleResult = .ok true)
    (hready : b.isReady = true)
    (hbi : b.buildInputsResult = .ok (inputs, false)) :
    tryStartNextPendingBuild env b resources =
      ⟨{ scheduled := true, readyToDetermineInputs := true }, none,
       [.checkPipelinePaused, .readJobPaused, .scheduleClaim, .checkReady,
        .getBuildInputs]⟩ ∧
    Effect.compile ∉ (tryStartNextPendingBuild env b resources).trace ∧
    (∀ s, Effect.finish s ∉ (tryStartNextPendingBuild env b resources).trace) ∧
    Effect.start ∉ (tryStartNextPendingBuild env b resources).trace ∧
    dispatchLoop env resources [b] =
      ((false, none),
       [(b.id,
         [.checkPipelinePaused, .readJobPaused, .scheduleClaim, .checkReady,
          .getBuildInputs])]) := by
  have h1 : tryStartNextPendingBuild env b resources =
      ⟨{ scheduled := true, readyToDetermineInputs := true }, none,
       [.checkPipelinePaused, .readJobPaused, .scheduleClaim, .checkReady,
        .getBuildInputs]⟩ := by
    simp [tryStartNextPendingBuild, hab, hpp, hjp, hsch, hready, hbi]
  refine ⟨h1, ?_, ?_, ?_, ?_⟩
  · simp [h1]
  · simp [h1]
  · simp [h1]
  · simp [dispatchLoop, h1, dispatchDecision]

/-- Claim C7 witness: concrete not-found input resolution. -/
theorem unsatisfiable_inputs_left_pending_witness :
    notFoundBuild.buildInputsResult = .ok ([], false) ∧
    tryStartNextPendingBuild envAllOk notFoundBuild [] =
      ⟨{ scheduled := true, readyToDetermineInputs := true }, none,
       [.checkPipelinePaused, .readJobPaused, .scheduleClaim, .checkReady,
        .getBuildInputs]⟩ :=
  ⟨rfl,
    (unsatisfiable_inputs_left_pending envAllOk notFoundBuild [] []
      rfl rfl rfl rfl rfl rfl).1⟩

/-- Claim C8: a plan-compiler failure finishes the build as errored with
exactly one terminal-status write, returns the zero result with nil error,
and the dispatch loop halts for the tick without evaluating later builds,
with a nil job-level error. -/
theorem compile_failure_errored_once_stops_tick (env : EnvRec) (b : BuildRec)
    (resources : List Resource) (rest : List BuildRec)
    (inputs : List BuildInput) (rts : ResourceTypes) (cfg : JobConfig)
    (ce : Err)
    (hab : b.isAborted = false) (hpp : env.checkPaused = .ok false)
    (hjp : env.jobPaused = false) (hsch : b.scheduleResult = .ok true)
    (hready : b.isReady = true)
    (hbi : b.buildInputsResult = .ok (inputs, true))
    (hrt : env.resourceTypes = .ok rts) (hcfg : env.config = .ok cfg)
    (hcr : env.create cfg (mkResourceConfigs resources) rts.deserialize
        inputs = .error ce)
    (hfin : b.finishResult .errored = none) :
    tryStartNextPendingBuild env b resources =
      ⟨{}, none,
       [.checkPipelinePaused, .readJobPaused, .scheduleClaim, .checkReady,
        .getBuildInputs, .fetchResourceTypes, .fetchConfig, .compile,
        .finish .errored]⟩ ∧
    ((tryStartNextPendingBuild env b resources).trace.countP
      Effect.isTerminalWrite) = 1 ∧
    dispatchLoop env resources (b :: rest) =
      ((true, none),
       [(b.id,
         [.checkPipelinePaused, .readJobPaused, .scheduleClaim, .checkReady,
          .getBuildInputs, .fetchResourceTypes, .fetchConfig, .compile,
          .finish .errored])]) := by
  have h1 : tryStartNextPendingBuild env b resources =
      ⟨{}, none,
       [.checkPipelinePaused, .readJobPaused, .scheduleClaim, .checkReady,
        .getBuildInputs, .fetchResourceTypes, .fetchConfig, .compile,
        .finish .errored]⟩ := by
    simp [tryStartNextPendingBuild, hab, hpp, hjp, hsch, hready, hbi, hrt,
      hcfg, hcr, hfin]
  refine ⟨h1, ?_, ?_⟩
  · rw [h1]; decide
  · simp [dispatchLoop, h1, dispatchDecision]

/-- Claim C8 witness: concrete failing compiler ahead of a healthy build;
the healthy build is not evaluated and the tick error is nil. -/
theorem compile_failure_errored_once_stops_tick_witness :
    envCompileFail.create ⟨5⟩ (mkResourceConfigs [])
        (ResourceTypes.deserialize ⟨3⟩) [⟨7⟩] = .error (.msg "bad config") ∧
    dispatchLoop envCompileFail [] [sampleBuild, notFoundBuild] =
      ((true, none),
       [(sampleBuild.id,
         [.checkPipelinePaused, .readJobPaused, .scheduleClaim, .checkReady,
          .getBuildInputs, .fetchResourceTypes, .fetchConfig, .compile,
          .finish .errored])]) :=
  ⟨rfl,
    (compile_failure_errored_once_stops_tick envCompileFail sampleBuild []
      [notFoundBuild] [⟨7⟩] ⟨3⟩ ⟨5⟩ (.msg "bad config")
      rfl rfl rfl rfl rfl rfl rfl rfl rfl rfl).2.2⟩

/-- An environment whose pending-build enumeration fails. -/
def envDbDown : EnvRec :=
  { envAllOk with getPendingBuilds := .error (.msg "db down") }

/-- A re-run pending build (re-run of build 5) that wins its claim but is
not ready to determine inputs. -/
def rerunNotReadyBuild : BuildRec :=
  { sampleBuild with id := 7, name := "5.1", rerunOf := 5, isReady := false }

/-- A tick whose pending builds are the not-ready re-run followed by a
healthy normal build. -/
def envRerunThenNormal : EnvRec :=
  { envAllOk with getPendingBuilds := .ok [rerunNotReadyBuild, sampleBuild] }

/-- Helper for C9: whenever the dispatch loop itself returns a non-nil
error, its needsRetry flag is false. -/
theorem dispatchLoop_error_no_retry (env : EnvRec) (resources : List Resource)
    (builds : List BuildRec)
    (h : (dispatchLoop env resources builds).1.2 ≠ none) :
    (dispatchLoop env resources builds).1.1 = false := by
  induction builds with
  | nil => simp [dispatchLoop] at h
  | cons b rest ih =>
    simp only [dispatchLoop] at h ⊢
    rcases hd : dispatchDecision (tryStartNextPendingBuild env b resources)
        b.rerunOf with e | _ | _ | _ <;> simp only [hd] at h ⊢
    all_goals first
      | rfl
      | exact ih h
      | simp at h

/-- Claim C9: whenever `TryStartPendingBuildsForJob` returns a non-nil
error, the needsRetry boolean it returns is false, for every environment
(every pending-build list and collaborator failure point). -/
theorem error_implies_no_retry (env : EnvRec) (resources : List Resource)
    (h : (TryStartPendingBuildsForJob env resources).1.2 ≠ none) :
    (TryStartPendingBuildsForJob env resources).1.1 = false := by
  rcases hp : env.getPendingBuilds with e | builds <;>
    simp only [TryStartPendingBuildsForJob, hp] at h ⊢
  exact dispatchLoop_error_no_retry env resources _ h

/-- Claim C9 witness: concrete failing pending-build enumeration returns an
error paired with needsRetry false. -/
theorem error_implies_no_retry_witness :
    (TryStartPendingBuildsForJob envDbDown []).1.2 ≠ none ∧
    (TryStartPendingBuildsForJob envDbDown []).1.1 = false :=
  ⟨by decide, error_implies_no_retry envDbDown [] (by decide)⟩

/-- Claim C1, evaluated on the code at the failing input: with pending
builds [re-run claimed but not ready, normal ready], the dispatch loop
halts at the re-run build — only the re-run build is evaluated, the normal
build behind it is not, and the tick returns (true, nil).  The claim (and
the commented intent of the source) says the build behind the re-run is
still evaluated in the same tick. -/
theorem rerun_not_ready_halts_tick_in_code :
    classify rerunNotReadyBuild = Variant.rerun ∧
    TryStartPendingBuildsForJob envRerunThenNormal [] =
      ((true, none),
       [(rerunNotReadyBuild.id,
         [.checkPipelinePaused, .readJobPaused, .scheduleClaim,
          .checkReady])]) ∧
    sampleBuild.id ∉
      (TryStartPendingBuildsForJob envRerunThenNormal []).2.map Prod.fst := by
  refine ⟨by decide, by decide, by decide⟩

end BuildStarter
